import Mathlib

/-!
Shallow embedding of `src/termul.py`, an async security scanner.

The Python program keeps four pieces of global mutable state
(`findings`, `critical_count`, `stop_scan`, `logic_graph`); here they are
the fields of `ScanState`, threaded explicitly through every operation.
The network is modelled by an `Oracle`: a function from a request to
either a response `(status, body)` or a network error (the possible
exceptions swallowed by the bare `except:` in `fetch`).  Every operation
additionally returns the list of requests it issued, so that claims
about "no further request is issued" are statable.
-/

/-- Risk levels attached to findings (the `"risk"` strings in the source). -/
inductive Risk where
  | HIGH
  | CRITICAL
deriving DecidableEq, Repr

/-- One finding dict `{"type": ..., "endpoint": ..., "risk": ...}`; the
`type` field keeps the string the source uses. -/
structure Finding where
  type : String
  endpoint : String
  risk : Risk
deriving DecidableEq, Repr

/-- The global mutable state of `termul.py` (lines 13-17): `findings`,
`critical_count`, `stop_scan` and the correlation graph `logic_graph`.
The graph (`defaultdict(list)`, mutated only by appends in `correlate`)
is modelled as the list of `(source, target)` edges in insertion order;
the per-key lists of the Python dict are recovered by filtering on the
source key. -/
structure ScanState where
  findings : List Finding
  critical_count : Nat
  stop_scan : Bool
  logic_graph : List (String × String)
deriving DecidableEq, Repr

/-- The initial global state: `findings = []`, `critical_count = 0`,
`stop_scan = False`, `logic_graph = defaultdict(list)`. -/
def initState : ScanState :=
  { findings := [], critical_count := 0, stop_scan := false, logic_graph := [] }

/-- Embeds `CRITICAL_STOP_THRESHOLD = 2` (termul.py line 9). -/
def CRITICAL_STOP_THRESHOLD : Nat := 2

/-- Embeds `add_finding` (termul.py lines 21-30): append the finding; if its risk
is CRITICAL increment `critical_count`; then set `stop_scan` when
`critical_count >= CRITICAL_STOP_THRESHOLD`. -/
def add_finding (f : Finding) (s : ScanState) : ScanState :=
  let findings := s.findings ++ [f]
  let critical_count :=
    if f.risk = Risk.CRITICAL then s.critical_count + 1 else s.critical_count
  let stop_scan :=
    if critical_count ≥ CRITICAL_STOP_THRESHOLD then true else s.stop_scan
  { s with findings := findings, critical_count := critical_count,
           stop_scan := stop_scan }

/-- Embeds `correlate` (termul.py lines 33-34): `logic_graph[source].append(target)`. -/
def correlate (source target : String) (s : ScanState) : ScanState :=
  { s with logic_graph := s.logic_graph ++ [(source, target)] }

/-- The exceptions a request may raise inside `fetch`; the bare `except:`
catches all of them. -/
inductive NetErr where
  | timeout
  | connError
  | protocolError
  | other (msg : String)
deriving DecidableEq, Repr

/-- One HTTP request as issued by `session.request(method, url, headers, json)`.
Headers and JSON body are `none` when the Python default `None` is used. -/
structure Request where
  method : String
  url : String
  headers : Option (List (String × String))
  json : Option (List (String × String))
deriving DecidableEq, Repr

/-- The network: maps each request either to a response `(status, body)` or
to a raised transport / timeout / protocol error. -/
def Oracle : Type := Request → Except NetErr (Nat × String)

/-- Embeds `fetch` (termul.py lines 39-52): issue the single request; on success
return `(status, text)`, on any exception return `(None, None)`.  The second
component of the result is the list of requests issued (always exactly the
one request: there is no retry). -/
def fetch (o : Oracle) (method url : String)
    (headers : Option (List (String × String)))
    (json : Option (List (String × String))) :
    (Option Nat × Option String) × List Request :=
  let req : Request := ⟨method, url, headers, json⟩
  match o req with
  | .ok (status, text) => ((some status, some text), [req])
  | .error _ => ((none, none), [req])

/-- Embeds `check_exposed_route` (termul.py lines 55-67). -/
def check_exposed_route (o : Oracle) (url : String) (s : ScanState) :
    ScanState × List Request :=
  if s.stop_scan then (s, [])
  else
    let r := fetch o "GET" url none none
    if r.1.1 = some 200 then
      (add_finding ⟨"EXPOSED_ROUTE", url, Risk.HIGH⟩ s, r.2)
    else (s, r.2)

/-- Embeds `check_missing_auth` (termul.py lines 70-82). -/
def check_missing_auth (o : Oracle) (url : String) (s : ScanState) :
    ScanState × List Request :=
  if s.stop_scan then (s, [])
  else
    let r := fetch o "GET" url none none
    if r.1.1 = some 200 then
      (add_finding ⟨"MISSING_AUTH", url, Risk.CRITICAL⟩ s, r.2)
    else (s, r.2)

/-- The loop of `check_idor` (termul.py lines 89-102) over the remaining
ids.  Each iteration first checks `stop_scan` and the `return` exits the
whole loop; on a 200 it records a CRITICAL IDOR finding and a
`IDOR -> DATA_DISCLOSURE` correlation edge. -/
def check_idor_loop (o : Oracle) (base token : String) (ids : List Nat)
    (s : ScanState) : ScanState × List Request :=
  match ids with
  | [] => (s, [])
  | i :: rest =>
    if s.stop_scan then (s, [])
    else
      let url := base ++ "?id=" ++ toString i
      let r :=
        fetch o "GET" url (some [("Authorization", "Bearer " ++ token)]) none
      let s1 :=
        if r.1.1 = some 200 then
          correlate "IDOR" "DATA_DISCLOSURE"
            (add_finding ⟨"IDOR", url, Risk.CRITICAL⟩ s)
        else s
      let r2 := check_idor_loop o base token rest s1
      (r2.1, r.2 ++ r2.2)

/-- Embeds `check_idor` (termul.py lines 85-102): `for i in range(1, 6)`. -/
def check_idor (o : Oracle) (base token : String) (s : ScanState) :
    ScanState × List Request :=
  check_idor_loop o base token [1, 2, 3, 4, 5] s

/-- Embeds `check_privilege` (termul.py lines 105-119). -/
def check_privilege (o : Oracle) (url token : String) (s : ScanState) :
    ScanState × List Request :=
  if s.stop_scan then (s, [])
  else
    let r :=
      fetch o "POST" url (some [("Authorization", "Bearer " ++ token)]) none
    if r.1.1 = some 200 then
      (correlate "PRIVILEGE_ESCALATION" "ADMIN_ACTION"
        (add_finding ⟨"PRIVILEGE_ESCALATION", url, Risk.CRITICAL⟩ s), r.2)
    else (s, r.2)

/-- Embeds `check_workflow` (termul.py lines 122-138). -/
def check_workflow (o : Oracle) (url token : String) (s : ScanState) :
    ScanState × List Request :=
  if s.stop_scan then (s, [])
  else
    let r :=
      fetch o "POST" url (some [("Authorization", "Bearer " ++ token)])
        (some [("status", "completed")])
    if r.1.1 = some 200 then
      (correlate "WORKFLOW_BYPASS" "FINANCIAL_IMPACT"
        (add_finding ⟨"WORKFLOW_BYPASS", url, Risk.HIGH⟩ s), r.2)
    else (s, r.2)

/-- Embeds `waf_guarded` (termul.py lines 143-145): `asyncio.sleep(WAF_DELAY)` has no
effect on the scan state, so the wrapper is the identity on the task. -/
def waf_guarded (t : ScanState → ScanState × List Request) :
    ScanState → ScanState × List Request := t

/-- Run a list of check tasks one after another, accumulating the request
log (the sequential schedule of `asyncio.gather`). -/
def runTasks (ts : List (ScanState → ScanState × List Request))
    (s : ScanState) : ScanState × List Request :=
  match ts with
  | [] => (s, [])
  | t :: rest =>
    let r := t s
    let r2 := runTasks rest r.1
    (r2.1, r.2 ++ r2.2)

/-- The task list built by `termul_full_async` (termul.py lines 154-219), in
creation order: four exposed-route checks, two missing-auth checks, one
IDOR check, two privilege checks, one workflow check. -/
def scan_tasks (o : Oracle) (base_url token : String) :
    List (ScanState → ScanState × List Request) :=
  (["admin", "api/admin", "debug", "internal"].map fun r =>
    waf_guarded (check_exposed_route o (base_url ++ "/" ++ r)))
  ++ (["/api/admin", "/api/internal/report"].map fun ep =>
    waf_guarded (check_missing_auth o (base_url ++ ep)))
  ++ [waf_guarded (check_idor o (base_url ++ "/api/user/profile") token)]
  ++ (["/api/admin/approve", "/api/admin/delete"].map fun ep =>
    waf_guarded (check_privilege o (base_url ++ ep) token))
  ++ [waf_guarded (check_workflow o (base_url ++ "/api/order/complete") token)]

/-- Embeds `termul_full_async` (termul.py lines 150-221): build the tasks and run
them all to completion from the given state. -/
def termul_full_async (o : Oracle) (base_url token : String)
    (s : ScanState) : ScanState × List Request :=
  runTasks (scan_tasks o base_url token) s

/-! ### Invariants and derived notions -/

/-- Number of CRITICAL findings in the finding sequence. -/
def criticalFindings (s : ScanState) : Nat :=
  (s.findings.filter fun f => f.risk = Risk.CRITICAL).length

/-- Invariant I1 of the spec: `critical_count` equals the number of CRITICAL
findings. -/
def I1 (s : ScanState) : Prop := s.critical_count = criticalFindings s

/-- Invariant I3 of the spec: `stop_scan` holds exactly when `critical_count`
has reached `CRITICAL_STOP_THRESHOLD`. -/
def I3 (s : ScanState) : Prop :=
  s.stop_scan = true ↔ CRITICAL_STOP_THRESHOLD ≤ s.critical_count

/-- Run a sequence of `add_finding` calls in order. -/
def runAdds (fs : List Finding) (s : ScanState) : ScanState :=
  fs.foldl (fun s f => add_finding f s) s

/-- The per-key edge list of `logic_graph` (the Python dict entry for `k`),
as its length. -/
def edgeCount (s : ScanState) (k : String) : Nat :=
  (s.logic_graph.filter fun e => e.1 = k).length

/-- Number of findings of a given type. -/
def typeCount (s : ScanState) (t : String) : Nat :=
  (s.findings.filter fun f => f.type = t).length

/-- The correlation-graph invariant: only the three logic checks own keys,
each key's edge list is as long as the list of findings of that type, and
every edge's target is the fixed impact label of its key. -/
def graphInv (s : ScanState) : Prop :=
  (∀ e ∈ s.logic_graph,
    e.1 = "IDOR" ∨ e.1 = "PRIVILEGE_ESCALATION" ∨ e.1 = "WORKFLOW_BYPASS") ∧
  edgeCount s "IDOR" = typeCount s "IDOR" ∧
  edgeCount s "PRIVILEGE_ESCALATION" = typeCount s "PRIVILEGE_ESCALATION" ∧
  edgeCount s "WORKFLOW_BYPASS" = typeCount s "WORKFLOW_BYPASS" ∧
  (∀ e ∈ s.logic_graph, e.1 = "IDOR" → e.2 = "DATA_DISCLOSURE") ∧
  (∀ e ∈ s.logic_graph, e.1 = "PRIVILEGE_ESCALATION" → e.2 = "ADMIN_ACTION") ∧
  (∀ e ∈ s.logic_graph, e.1 = "WORKFLOW_BYPASS" → e.2 = "FINANCIAL_IMPACT")

/-- One observable step of a scan: a complete run of one of the five check
bodies (for IDOR, any run of the loop, which covers single iterations and
suffixes of the iteration space). -/
inductive ScanStep : ScanState → ScanState → Prop where
  | exposed (o : Oracle) (url : String) (s : ScanState) :
      ScanStep s (check_exposed_route o url s).1
  | missing (o : Oracle) (url : String) (s : ScanState) :
      ScanStep s (check_missing_auth o url s).1
  | idor (o : Oracle) (base token : String) (ids : List Nat) (s : ScanState) :
      ScanStep s (check_idor_loop o base token ids s).1
  | priv (o : Oracle) (url token : String) (s : ScanState) :
      ScanStep s (check_privilege o url token s).1
  | workflow (o : Oracle) (url token : String) (s : ScanState) :
      ScanStep s (check_workflow o url token s).1

/-- States reachable from the initial scan state by check steps. -/
inductive ScanReach : ScanState → Prop where
  | init : ScanReach initState
  | step {s s' : ScanState} : ScanReach s → ScanStep s s' → ScanReach s'

/-! ### Concrete oracles for the scenario claims -/

/-- The network of the IDOR scenario: status 200 for ids 1 and 2 of the
profile endpoint, 404 for everything else. -/
def idorOracle : Oracle := fun req =>
  if req.url = "https://t.example/api/user/profile?id=1" ∨
     req.url = "https://t.example/api/user/profile?id=2" then .ok (200, "")
  else .ok (404, "")

/-- The network of the end-to-end scenario: 200 for the GET of the admin
exposed route and of the internal report, 404 for every other request. -/
def e2eOracle : Oracle := fun req =>
  if req.method = "GET" ∧
     (req.url = "https://t.example/admin" ∨
      req.url = "https://t.example/api/internal/report") then .ok (200, "")
  else .ok (404, "")

/-- A network on which every request raises (here: times out). -/
def oracleFail : Oracle := fun _ => .error NetErr.timeout

/-- A network answering 200 to every request. -/
def oracle200 : Oracle := fun _ => .ok (200, "")

/-! ### Basic equations -/

theorem add_finding_findings (f : Finding) (s : ScanState) :
    (add_finding f s).findings = s.findings ++ [f] := rfl

theorem add_finding_count (f : Finding) (s : ScanState) :
    (add_finding f s).critical_count =
      if f.risk = Risk.CRITICAL then s.critical_count + 1
      else s.critical_count := rfl

theorem add_finding_stop (f : Finding) (s : ScanState) :
    (add_finding f s).stop_scan =
      if (add_finding f s).critical_count ≥ CRITICAL_STOP_THRESHOLD then true
      else s.stop_scan := rfl

theorem add_finding_graph (f : Finding) (s : ScanState) :
    (add_finding f s).logic_graph = s.logic_graph := rfl

theorem add_finding_count_mono (f : Finding) (s : ScanState) :
    s.critical_count ≤ (add_finding f s).critical_count := by
  rw [add_finding_count]
  split <;> omega

theorem add_finding_stop_mono (f : Finding) (s : ScanState)
    (h : s.stop_scan = true) : (add_finding f s).stop_scan = true := by
  rw [add_finding_stop]
  split
  · rfl
  · exact h

theorem correlate_findings (a b : String) (s : ScanState) :
    (correlate a b s).findings = s.findings := rfl

theorem correlate_graph (a b : String) (s : ScanState) :
    (correlate a b s).logic_graph = s.logic_graph ++ [(a, b)] := rfl

/-! ### Invariant preservation by the primitive mutations -/

theorem add_finding_I1 (f : Finding) (s : ScanState) (h : I1 s) :
    I1 (add_finding f s) := by
  unfold I1 criticalFindings at *
  rw [add_finding_findings, add_finding_count, List.filter_append,
    List.length_append]
  by_cases hr : f.risk = Risk.CRITICAL <;> simp [hr, h]

theorem correlate_I1 (a b : String) (s : ScanState) (h : I1 s) :
    I1 (correlate a b s) := h

theorem add_finding_I3 (f : Finding) (s : ScanState) (h : I3 s) :
    I3 (add_finding f s) := by
  unfold I3 at *
  rw [add_finding_stop]
  have hc := add_finding_count_mono f s
  by_cases h2 : CRITICAL_STOP_THRESHOLD ≤ (add_finding f s).critical_count
  · simp [ge_iff_le, h2]
  · rw [if_neg h2]
    constructor
    · intro hs
      exact absurd (le_trans (h.mp hs) hc) h2
    · intro hx
      exact absurd hx h2

/-! ### A generic preservation principle for check steps -/

theorem check_idor_loop_preserve (P : ScanState → Prop)
    (hP : ∀ url s, P s →
      P (correlate "IDOR" "DATA_DISCLOSURE"
          (add_finding ⟨"IDOR", url, Risk.CRITICAL⟩ s)))
    (o : Oracle) (base token : String) (ids : List Nat) :
    ∀ s, P s → P (check_idor_loop o base token ids s).1 := by
  induction ids with
  | nil => intro s h; exact h
  | cons i rest ih =>
    intro s h
    unfold check_idor_loop
    split
    · exact h
    · dsimp only
      split
      · exact ih _ (hP _ _ h)
      · exact ih _ h

theorem scanstep_preserve (P : ScanState → Prop)
    (hexp : ∀ url s, P s →
      P (add_finding ⟨"EXPOSED_ROUTE", url, Risk.HIGH⟩ s))
    (hmiss : ∀ url s, P s →
      P (add_finding ⟨"MISSING_AUTH", url, Risk.CRITICAL⟩ s))
    (hidor : ∀ url s, P s →
      P (correlate "IDOR" "DATA_DISCLOSURE"
          (add_finding ⟨"IDOR", url, Risk.CRITICAL⟩ s)))
    (hpriv : ∀ url s, P s →
      P (correlate "PRIVILEGE_ESCALATION" "ADMIN_ACTION"
          (add_finding ⟨"PRIVILEGE_ESCALATION", url, Risk.CRITICAL⟩ s)))
    (hwf : ∀ url s, P s →
      P (correlate "WORKFLOW_BYPASS" "FINANCIAL_IMPACT"
          (add_finding ⟨"WORKFLOW_BYPASS", url, Risk.HIGH⟩ s)))
    {s s' : ScanState} (st : ScanStep s s') (h : P s) : P s' := by
  cases st with
  | exposed o url s =>
    unfold check_exposed_route
    split
    · exact h
    · dsimp only
      split
      · exact hexp _ _ h
      · exact h
  | missing o url s =>
    unfold check_missing_auth
    split
    · exact h
    · dsimp only
      split
      · exact hmiss _ _ h
      · exact h
  | idor o base token ids s =>
    exact check_idor_loop_preserve P hidor o base token ids s h
  | priv o url token s =>
    unfold check_privilege
    split
    · exact h
    · dsimp only
      split
      · exact hpriv _ _ h
      · exact h
  | workflow o url token s =>
    unfold check_workflow
    split
    · exact h
    · dsimp only
      split
      · exact hwf _ _ h
      · exact h

theorem runTasks_preserve (P : ScanState → Prop)
    (ts : List (ScanState → ScanState × List Request))
    (hts : ∀ t ∈ ts, ∀ s, P s → P (t s).1) :
    ∀ s, P s → P (runTasks ts s).1 := by
  induction ts with
  | nil => exact fun s h => h
  | cons t rest ih =>
    intro s h
    unfold runTasks
    dsimp only
    exact ih (fun u hu s' hs' => hts u (List.mem_cons_of_mem _ hu) s' hs') _
      (hts t (List.mem_cons_self _ _) s h)

theorem scan_tasks_step (o : Oracle) (base_url token : String) :
    ∀ t ∈ scan_tasks o base_url token, ∀ s, ScanStep s (t s).1 := by
  intro t ht s
  simp only [scan_tasks, waf_guarded, List.mem_append, List.mem_map,
    List.mem_cons, List.mem_singleton, List.not_mem_nil, or_false] at ht
  rcases ht with ((((⟨r, hr, rfl⟩ | ⟨ep, hep, rfl⟩) | rfl) | ⟨ep, hep, rfl⟩) | rfl)
  · exact ScanStep.exposed o _ s
  · exact ScanStep.missing o _ s
  · exact ScanStep.idor o _ token [1, 2, 3, 4, 5] s
  · exact ScanStep.priv o _ token s
  · exact ScanStep.workflow o _ token s

/-! ### Early-return behavior once the stop flag is observed -/

theorem check_exposed_route_stopped (o : Oracle) (url : String)
    (s : ScanState) (h : s.stop_scan = true) :
    check_exposed_route o url s = (s, []) := by
  unfold check_exposed_route
  rw [if_pos h]

theorem check_missing_auth_stopped (o : Oracle) (url : String)
    (s : ScanState) (h : s.stop_scan = true) :
    check_missing_auth o url s = (s, []) := by
  unfold check_missing_auth
  rw [if_pos h]

theorem check_idor_loop_stopped (o : Oracle) (base token : String)
    (ids : List Nat) (s : ScanState) (h : s.stop_scan = true) :
    check_idor_loop o base token ids s = (s, []) := by
  cases ids with
  | nil => rfl
  | cons i rest =>
    unfold check_idor_loop
    rw [if_pos h]

theorem check_privilege_stopped (o : Oracle) (url token : String)
    (s : ScanState) (h : s.stop_scan = true) :
    check_privilege o url token s = (s, []) := by
  unfold check_privilege
  rw [if_pos h]

theorem check_workflow_stopped (o : Oracle) (url token : String)
    (s : ScanState) (h : s.stop_scan = true) :
    check_workflow o url token s = (s, []) := by
  unfold check_workflow
  rw [if_pos h]

/-! ### Claim theorems -/

/-- C1: after every call to `add_finding` (it preserves invariant I1, along
any sequence of calls from the initial state), and in the final `ScanState`
of every scan, `critical_count` equals the number of findings whose risk is
CRITICAL. -/
theorem C1_critical_count_invariant :
    (∀ (f : Finding) (s : ScanState), I1 s → I1 (add_finding f s)) ∧
    (∀ fs : List Finding, I1 (runAdds fs initState)) ∧
    (∀ (o : Oracle) (base_url token : String),
      I1 (termul_full_async o base_url token initState).1) := by
  have hinit : I1 initState := rfl
  have hrun : ∀ (fs : List Finding) (s : ScanState), I1 s → I1 (runAdds fs s) := by
    intro fs
    induction fs with
    | nil => exact fun s h => h
    | cons f rest ih => exact fun s h => ih _ (add_finding_I1 f s h)
  refine ⟨fun f s h => add_finding_I1 f s h, fun fs => hrun fs initState hinit, ?_⟩
  intro o base_url token
  refine runTasks_preserve I1 _ (fun t ht s hs => ?_) initState hinit
  refine scanstep_preserve I1 ?_ ?_ ?_ ?_ ?_ (scan_tasks_step o base_url token t ht s) hs
  · exact fun url s' h => add_finding_I1 _ _ h
  · exact fun url s' h => add_finding_I1 _ _ h
  · exact fun url s' h => correlate_I1 _ _ _ (add_finding_I1 _ _ h)
  · exact fun url s' h => correlate_I1 _ _ _ (add_finding_I1 _ _ h)
  · exact fun url s' h => correlate_I1 _ _ _ (add_finding_I1 _ _ h)

/-- Closed witness for C1's hypothesis-bearing conjunct. -/
theorem C1_critical_count_invariant_witness :
    I1 (add_finding ⟨"MISSING_AUTH", "u", Risk.CRITICAL⟩ initState) :=
  C1_critical_count_invariant.1 _ initState rfl

/-- C2: along any sequence of `add_finding` calls from the initial state,
`stop_scan` is true exactly when `critical_count` has reached
`CRITICAL_STOP_THRESHOLD`; the flag flips exactly at the recording call
that makes the count reach the threshold, and no call can reset it. -/
theorem C2_stop_iff_threshold :
    (∀ fs : List Finding,
      ((runAdds fs initState).stop_scan = true ↔
        CRITICAL_STOP_THRESHOLD ≤ (runAdds fs initState).critical_count)) ∧
    (∀ (f : Finding) (s : ScanState), s.stop_scan = false →
      ((add_finding f s).stop_scan = true ↔
        CRITICAL_STOP_THRESHOLD ≤ (add_finding f s).critical_count)) ∧
    (∀ (f : Finding) (s : ScanState), s.stop_scan = true →
      (add_finding f s).stop_scan = true) := by
  have hinit : I3 initState := by
    unfold I3 initState CRITICAL_STOP_THRESHOLD
    simp
  refine ⟨?_, ?_, fun f s h => add_finding_stop_mono f s h⟩
  · intro fs
    have hrun : ∀ (gs : List Finding) (s : ScanState), I3 s → I3 (runAdds gs s) := by
      intro gs
      induction gs with
      | nil => exact fun s h => h
      | cons f rest ih => exact fun s h => ih _ (add_finding_I3 f s h)
    exact hrun fs initState hinit
  · intro f s hs
    rw [add_finding_stop]
    by_cases h2 : CRITICAL_STOP_THRESHOLD ≤ (add_finding f s).critical_count
    · simp [h2]
    · rw [if_neg h2, hs]
      simp [h2]

/-- Closed witness for C2: one CRITICAL finding on top of one reaches the
threshold and flips the flag; a stopped state stays stopped. -/
theorem C2_stop_iff_threshold_witness :
    ((add_finding ⟨"MISSING_AUTH", "u", Risk.CRITICAL⟩
        { findings := [⟨"IDOR", "v", Risk.CRITICAL⟩], critical_count := 1,
          stop_scan := false, logic_graph := [] }).stop_scan = true ↔
      CRITICAL_STOP_THRESHOLD ≤
        (add_finding ⟨"MISSING_AUTH", "u", Risk.CRITICAL⟩
          { findings := [⟨"IDOR", "v", Risk.CRITICAL⟩], critical_count := 1,
            stop_scan := false, logic_graph := [] }).critical_count) ∧
    (add_finding ⟨"EXPOSED_ROUTE", "w", Risk.HIGH⟩
      { findings := [], critical_count := 2, stop_scan := true,
        logic_graph := [] }).stop_scan = true :=
  ⟨C2_stop_iff_threshold.2.1 _ _ rfl, C2_stop_iff_threshold.2.2 _ _ rfl⟩

/-- A state in which the circuit breaker has fired. -/
def stoppedState : ScanState :=
  { findings := [], critical_count := 2, stop_scan := true, logic_graph := [] }

/-- C3: once `stop_scan` is true it never reverts to false: neither
`add_finding` nor `correlate` nor any of the five check tasks (for IDOR,
any run of its loop) can reset it. -/
theorem C3_stop_never_reverts :
    (∀ (f : Finding) (s : ScanState), s.stop_scan = true →
      (add_finding f s).stop_scan = true) ∧
    (∀ (a b : String) (s : ScanState), s.stop_scan = true →
      (correlate a b s).stop_scan = true) ∧
    (∀ (o : Oracle) (url : String) (s : ScanState), s.stop_scan = true →
      ((check_exposed_route o url s).1).stop_scan = true) ∧
    (∀ (o : Oracle) (url : String) (s : ScanState), s.stop_scan = true →
      ((check_missing_auth o url s).1).stop_scan = true) ∧
    (∀ (o : Oracle) (base token : String) (ids : List Nat) (s : ScanState),
      s.stop_scan = true →
      ((check_idor_loop o base token ids s).1).stop_scan = true) ∧
    (∀ (o : Oracle) (url token : String) (s : ScanState), s.stop_scan = true →
      ((check_privilege o url token s).1).stop_scan = true) ∧
    (∀ (o : Oracle) (url token : String) (s : ScanState), s.stop_scan = true →
      ((check_workflow o url token s).1).stop_scan = true) := by
  refine ⟨fun f s h => add_finding_stop_mono f s h, fun a b s h => h,
    ?_, ?_, ?_, ?_, ?_⟩
  · intro o url s h
    rw [check_exposed_route_stopped o url s h]
    exact h
  · intro o url s h
    rw [check_missing_auth_stopped o url s h]
    exact h
  · intro o base token ids s h
    rw [check_idor_loop_stopped o base token ids s h]
    exact h
  · intro o url token s h
    rw [check_privilege_stopped o url token s h]
    exact h
  · intro o url token s h
    rw [check_workflow_stopped o url token s h]
    exact h

/-- Closed witness for C3 at a stopped state. -/
theorem C3_stop_never_reverts_witness :
    ((add_finding ⟨"IDOR", "u", Risk.CRITICAL⟩ stoppedState).stop_scan = true) ∧
    ((correlate "IDOR" "DATA_DISCLOSURE" stoppedState).stop_scan = true) ∧
    (((check_idor_loop oracle200 "b" "t" [1, 2, 3, 4, 5] stoppedState).1).stop_scan
      = true) :=
  ⟨C3_stop_never_reverts.1 _ stoppedState rfl,
   C3_stop_never_reverts.2.1 "IDOR" "DATA_DISCLOSURE" stoppedState rfl,
   C3_stop_never_reverts.2.2.2.2.1 oracle200 "b" "t" [1, 2, 3, 4, 5]
     stoppedState rfl⟩

/-- C4: a check task that observes `stop_scan` true at entry — for IDOR,
before any remaining loop iteration — returns at once: it issues no request
and leaves the findings, the critical counter and the correlation graph
untouched. -/
theorem C4_stop_observed_frame :
    (∀ (o : Oracle) (url : String) (s : ScanState), s.stop_scan = true →
      check_exposed_route o url s = (s, [])) ∧
    (∀ (o : Oracle) (url : String) (s : ScanState), s.stop_scan = true →
      check_missing_auth o url s = (s, [])) ∧
    (∀ (o : Oracle) (base token : String) (ids : List Nat) (s : ScanState),
      s.stop_scan = true → check_idor_loop o base token ids s = (s, [])) ∧
    (∀ (o : Oracle) (url token : String) (s : ScanState), s.stop_scan = true →
      check_privilege o url token s = (s, [])) ∧
    (∀ (o : Oracle) (url token : String) (s : ScanState), s.stop_scan = true →
      check_workflow o url token s = (s, [])) :=
  ⟨check_exposed_route_stopped, check_missing_auth_stopped,
   check_idor_loop_stopped, check_privilege_stopped, check_workflow_stopped⟩

/-- Closed witness for C4: a stopped scan skips every check, including every
remaining IDOR iteration, even on a network that would answer 200. -/
theorem C4_stop_observed_frame_witness :
    check_exposed_route oracle200 "u" stoppedState = (stoppedState, []) ∧
    check_missing_auth oracle200 "u" stoppedState = (stoppedState, []) ∧
    check_idor_loop oracle200 "b" "t" [3, 4, 5] stoppedState = (stoppedState, []) ∧
    check_privilege oracle200 "u" "t" stoppedState = (stoppedState, []) ∧
    check_workflow oracle200 "u" "t" stoppedState = (stoppedState, []) :=
  ⟨C4_stop_observed_frame.1 oracle200 "u" stoppedState rfl,
   C4_stop_observed_frame.2.1 oracle200 "u" stoppedState rfl,
   C4_stop_observed_frame.2.2.1 oracle200 "b" "t" [3, 4, 5] stoppedState rfl,
   C4_stop_observed_frame.2.2.2.1 oracle200 "u" "t" stoppedState rfl,
   C4_stop_observed_frame.2.2.2.2 oracle200 "u" "t" stoppedState rfl⟩

/-- C5: `fetch` issues exactly the one request it was asked for (no retry),
maps every raised error to the `(None, None)` network-failure outcome
instead of propagating it, and returns the `(status, text)` pair on
success. -/
theorem C5_fetch_no_raise_no_retry :
    ∀ (o : Oracle) (method url : String)
      (headers json : Option (List (String × String))),
      ((fetch o method url headers json).2 = [⟨method, url, headers, json⟩]) ∧
      (∀ e : NetErr, o ⟨method, url, headers, json⟩ = Except.error e →
        (fetch o method url headers json).1 = (none, none)) ∧
      (∀ (status : Nat) (text : String),
        o ⟨method, url, headers, json⟩ = Except.ok (status, text) →
        (fetch o method url headers json).1 = (some status, some text)) := by
  intro o method url headers json
  refine ⟨?_, ?_, ?_⟩
  · unfold fetch
    dsimp only
    cases h : o ⟨method, url, headers, json⟩ with
    | ok v => cases v; rfl
    | error e => rfl
  · intro e he
    unfold fetch
    dsimp only
    rw [he]
  · intro status text hok
    unfold fetch
    dsimp only
    rw [hok]

/-- Closed witness for C5: a timing-out request yields the network-failure
outcome, a 200 yields the success pair, and each issues one request. -/
theorem C5_fetch_no_raise_no_retry_witness :
    (fetch oracleFail "GET" "u" none none).1 = (none, none) ∧
    (fetch oracleFail "GET" "u" none none).2 = [⟨"GET", "u", none, none⟩] ∧
    (fetch oracle200 "GET" "u" none none).1 = (some 200, some "") :=
  ⟨(C5_fetch_no_raise_no_retry oracleFail "GET" "u" none none).2.1
      NetErr.timeout rfl,
   (C5_fetch_no_raise_no_retry oracleFail "GET" "u" none none).1,
   (C5_fetch_no_raise_no_retry oracle200 "GET" "u" none none).2.2 200 "" rfl⟩

/-- C6: under the id-1/id-2 oracle, the IDOR check from a fresh state
produces exactly two CRITICAL IDOR findings and two IDOR -> DATA_DISCLOSURE
edges, trips the circuit breaker mid-loop, and issues requests only for
ids 1 and 2, none for ids 3, 4, 5. -/
theorem C6_idor_scenario :
    check_idor idorOracle "https://t.example/api/user/profile" "X" initState =
      ({ findings :=
          [⟨"IDOR", "https://t.example/api/user/profile?id=1", Risk.CRITICAL⟩,
           ⟨"IDOR", "https://t.example/api/user/profile?id=2", Risk.CRITICAL⟩],
         critical_count := 2, stop_scan := true,
         logic_graph :=
          [("IDOR", "DATA_DISCLOSURE"), ("IDOR", "DATA_DISCLOSURE")] },
       [⟨"GET", "https://t.example/api/user/profile?id=1",
          some [("Authorization", "Bearer X")], none⟩,
        ⟨"GET", "https://t.example/api/user/profile?id=2",
          some [("Authorization", "Bearer X")], none⟩]) := by
  decide

/-- C7: the full scan against the end-to-end oracle ends with exactly the
EXPOSED_ROUTE/HIGH finding for the admin URL and the MISSING_AUTH/CRITICAL
finding for the internal report URL, `critical_count = 1` and
`stop_scan = false`. -/
theorem C7_end_to_end_scenario :
    (termul_full_async e2eOracle "https://t.example" "X" initState).1 =
      { findings :=
          [⟨"EXPOSED_ROUTE", "https://t.example/admin", Risk.HIGH⟩,
           ⟨"MISSING_AUTH", "https://t.example/api/internal/report",
             Risk.CRITICAL⟩],
        critical_count := 1, stop_scan := false, logic_graph := [] } := by
  decide

/-! ### Behavior when every request fails -/

theorem fetch_fail (o : Oracle) (hfail : ∀ req, ∃ e, o req = Except.error e)
    (method url : String) (headers json : Option (List (String × String))) :
    fetch o method url headers json =
      ((none, none), [⟨method, url, headers, json⟩]) := by
  obtain ⟨e, he⟩ := hfail ⟨method, url, headers, json⟩
  unfold fetch
  dsimp only
  rw [he]

theorem check_exposed_route_fail (o : Oracle)
    (hfail : ∀ req, ∃ e, o req = Except.error e) (url : String)
    (s : ScanState) (hs : s.stop_scan = false) :
    check_exposed_route o url s = (s, [⟨"GET", url, none, none⟩]) := by
  unfold check_exposed_route
  rw [hs, fetch_fail o hfail]
  simp

theorem check_missing_auth_fail (o : Oracle)
    (hfail : ∀ req, ∃ e, o req = Except.error e) (url : String)
    (s : ScanState) (hs : s.stop_scan = false) :
    check_missing_auth o url s = (s, [⟨"GET", url, none, none⟩]) := by
  unfold check_missing_auth
  rw [hs, fetch_fail o hfail]
  simp

theorem check_idor_loop_fail (o : Oracle)
    (hfail : ∀ req, ∃ e, o req = Except.error e) (base token : String)
    (ids : List Nat) :
    ∀ s : ScanState, s.stop_scan = false →
    check_idor_loop o base token ids s =
      (s, ids.map fun i => ⟨"GET", base ++ "?id=" ++ toString i,
        some [("Authorization", "Bearer " ++ token)], none⟩) := by
  induction ids with
  | nil => intro s hs; rfl
  | cons i rest ih =>
    intro s hs
    unfold check_idor_loop
    rw [hs]
    simp only [fetch_fail o hfail]
    simp [ih s hs]

theorem check_privilege_fail (o : Oracle)
    (hfail : ∀ req, ∃ e, o req = Except.error e) (url token : String)
    (s : ScanState) (hs : s.stop_scan = false) :
    check_privilege o url token s =
      (s, [⟨"POST", url, some [("Authorization", "Bearer " ++ token)], none⟩]) := by
  unfold check_privilege
  rw [hs, fetch_fail o hfail]
  simp

theorem check_workflow_fail (o : Oracle)
    (hfail : ∀ req, ∃ e, o req = Except.error e) (url token : String)
    (s : ScanState) (hs : s.stop_scan = false) :
    check_workflow o url token s =
      (s, [⟨"POST", url, some [("Authorization", "Bearer " ++ token)],
        some [("status", "completed")]⟩]) := by
  unfold check_workflow
  rw [hs, fetch_fail o hfail]
  simp

/-- C8: when every request of a scan raises a network error, the scan still
runs every task to completion (all 14 requests are issued) and ends in the
initial state: no findings, zero critical count, stop flag down. -/
theorem C8_all_requests_fail (o : Oracle)
    (hfail : ∀ req, ∃ e, o req = Except.error e) (base_url token : String) :
    (termul_full_async o base_url token initState).1 = initState ∧
    ((termul_full_async o base_url token initState).2).length = 14 := by
  have h0 : initState.stop_scan = false := rfl
  have h1 := fun url => check_exposed_route_fail o hfail url initState h0
  have h2 := fun url => check_missing_auth_fail o hfail url initState h0
  have h3 := fun base => check_idor_loop_fail o hfail base token
    [1, 2, 3, 4, 5] initState h0
  have h4 := fun url => check_privilege_fail o hfail url token initState h0
  have h5 := fun url => check_workflow_fail o hfail url token initState h0
  unfold termul_full_async scan_tasks
  simp only [List.map, List.cons_append, List.nil_append, waf_guarded]
  simp only [runTasks, check_idor]
  simp [h1, h2, h3, h4, h5]

/-- Closed witness for C8 on the timing-out network. -/
theorem C8_all_requests_fail_witness :
    (termul_full_async oracleFail "https://t.example" "X" initState).1
      = initState ∧
    ((termul_full_async oracleFail "https://t.example" "X" initState).2).length
      = 14 :=
  C8_all_requests_fail oracleFail (fun _ => ⟨NetErr.timeout, rfl⟩)
    "https://t.example" "X"

/-! ### Correlation-graph accounting -/

theorem typeCount_add (f : Finding) (s : ScanState) (k : String) :
    typeCount (add_finding f s) k =
      typeCount s k + (if f.type = k then 1 else 0) := by
  unfold typeCount
  rw [add_finding_findings, List.filter_append, List.length_append]
  by_cases hf : f.type = k <;> simp [List.filter, hf]

theorem typeCount_correlate (a b : String) (s : ScanState) (k : String) :
    typeCount (correlate a b s) k = typeCount s k := rfl

theorem edgeCount_add (f : Finding) (s : ScanState) (k : String) :
    edgeCount (add_finding f s) k = edgeCount s k := rfl

theorem edgeCount_correlate (a b : String) (s : ScanState) (k : String) :
    edgeCount (correlate a b s) k =
      edgeCount s k + (if a = k then 1 else 0) := by
  unfold edgeCount
  rw [correlate_graph, List.filter_append, List.length_append]
  by_cases ha : a = k <;> simp [List.filter, ha]

theorem graphInv_add_nonlogic (f : Finding) (s : ScanState)
    (h1 : ¬f.type = "IDOR") (h2 : ¬f.type = "PRIVILEGE_ESCALATION")
    (h3 : ¬f.type = "WORKFLOW_BYPASS") (h : graphInv s) :
    graphInv (add_finding f s) := by
  obtain ⟨ha, hb, hc, hd, he, hf, hg⟩ := h
  have hgr : (add_finding f s).logic_graph = s.logic_graph := add_finding_graph f s
  refine ⟨?_, ?_, ?_, ?_, ?_, ?_, ?_⟩
  · rw [hgr]; exact ha
  · rw [edgeCount_add, typeCount_add, if_neg h1]; exact hb
  · rw [edgeCount_add, typeCount_add, if_neg h2]; exact hc
  · rw [edgeCount_add, typeCount_add, if_neg h3]; exact hd
  · rw [hgr]; exact he
  · rw [hgr]; exact hf
  · rw [hgr]; exact hg

theorem graphInv_pair (K L url : String) (risk : Risk) (s : ScanState)
    (hkey : K = "IDOR" ∧ L = "DATA_DISCLOSURE" ∨
            K = "PRIVILEGE_ESCALATION" ∧ L = "ADMIN_ACTION" ∨
            K = "WORKFLOW_BYPASS" ∧ L = "FINANCIAL_IMPACT")
    (h : graphInv s) :
    graphInv (correlate K L (add_finding ⟨K, url, risk⟩ s)) := by
  obtain ⟨ha, hb, hc, hd, he, hf, hg⟩ := h
  have hmem : ∀ e ∈ (correlate K L (add_finding ⟨K, url, risk⟩ s)).logic_graph,
      e ∈ s.logic_graph ∨ e = (K, L) := by
    intro e hm
    rw [correlate_graph, add_finding_graph] at hm
    rcases List.mem_append.mp hm with hm | hm
    · exact Or.inl hm
    · exact Or.inr (List.mem_singleton.mp hm)
  refine ⟨?_, ?_, ?_, ?_, ?_, ?_, ?_⟩
  · intro e hm
    rcases hmem e hm with hm | rfl
    · exact ha e hm
    · rcases hkey with ⟨h1, _⟩ | ⟨h1, _⟩ | ⟨h1, _⟩
      · exact Or.inl h1
      · exact Or.inr (Or.inl h1)
      · exact Or.inr (Or.inr h1)
  · rw [edgeCount_correlate, typeCount_correlate, edgeCount_add, typeCount_add,
      hb]
  · rw [edgeCount_correlate, typeCount_correlate, edgeCount_add, typeCount_add,
      hc]
  · rw [edgeCount_correlate, typeCount_correlate, edgeCount_add, typeCount_add,
      hd]
  · intro e hm h1
    rcases hmem e hm with hm | rfl
    · exact he e hm h1
    · dsimp at h1
      rcases hkey with ⟨hK, hL⟩ | ⟨hK, hL⟩ | ⟨hK, hL⟩
      · exact hL
      · rw [hK] at h1; exact absurd h1 (by decide)
      · rw [hK] at h1; exact absurd h1 (by decide)
  · intro e hm h1
    rcases hmem e hm with hm | rfl
    · exact hf e hm h1
    · dsimp at h1
      rcases hkey with ⟨hK, hL⟩ | ⟨hK, hL⟩ | ⟨hK, hL⟩
      · rw [hK] at h1; exact absurd h1 (by decide)
      · exact hL
      · rw [hK] at h1; exact absurd h1 (by decide)
  · intro e hm h1
    rcases hmem e hm with hm | rfl
    · exact hg e hm h1
    · dsimp at h1
      rcases hkey with ⟨hK, hL⟩ | ⟨hK, hL⟩ | ⟨hK, hL⟩
      · rw [hK] at h1; exact absurd h1 (by decide)
      · rw [hK] at h1; exact absurd h1 (by decide)
      · exact hL

theorem graphInv_init : graphInv initState := by
  refine ⟨?_, rfl, rfl, rfl, ?_, ?_, ?_⟩ <;> intro e hm <;> exact absurd hm
    (List.not_mem_nil e)

/-- C9: in every reachable scan state, every key of the correlation graph
is IDOR, PRIVILEGE_ESCALATION or WORKFLOW_BYPASS, each key's edge list is
exactly as long as the list of findings of that type, and every edge
carries the fixed impact label of its key. -/
theorem C9_graph_invariant : ∀ s : ScanState, ScanReach s → graphInv s := by
  intro s hr
  induction hr with
  | init => exact graphInv_init
  | step hreach hstep ih =>
    refine scanstep_preserve graphInv ?_ ?_ ?_ ?_ ?_ hstep ih
    · exact fun url s' h => graphInv_add_nonlogic _ _
        (show ¬("EXPOSED_ROUTE" : String) = "IDOR" by decide)
        (show ¬("EXPOSED_ROUTE" : String) = "PRIVILEGE_ESCALATION" by decide)
        (show ¬("EXPOSED_ROUTE" : String) = "WORKFLOW_BYPASS" by decide) h
    · exact fun url s' h => graphInv_add_nonlogic _ _
        (show ¬("MISSING_AUTH" : String) = "IDOR" by decide)
        (show ¬("MISSING_AUTH" : String) = "PRIVILEGE_ESCALATION" by decide)
        (show ¬("MISSING_AUTH" : String) = "WORKFLOW_BYPASS" by decide) h
    · exact fun url s' h => graphInv_pair _ _ url Risk.CRITICAL s'
        (Or.inl ⟨rfl, rfl⟩) h
    · exact fun url s' h => graphInv_pair _ _ url Risk.CRITICAL s'
        (Or.inr (Or.inl ⟨rfl, rfl⟩)) h
    · exact fun url s' h => graphInv_pair _ _ url Risk.HIGH s'
        (Or.inr (Or.inr ⟨rfl, rfl⟩)) h

/-- Closed witness for C9: the state after one full all-200 IDOR loop run is
reachable and satisfies the graph invariant. -/
theorem C9_graph_invariant_witness :
    graphInv (check_idor_loop oracle200 "b" "t" [1, 2, 3, 4, 5] initState).1 :=
  C9_graph_invariant _
    (ScanReach.step ScanReach.init (ScanStep.idor oracle200 "b" "t"
      [1, 2, 3, 4, 5] initState))

/-! ### Resource bounds -/

theorem fetch_log_length (o : Oracle) (method url : String)
    (headers json : Option (List (String × String))) :
    ((fetch o method url headers json).2).length = 1 := by
  unfold fetch
  dsimp only
  cases ho : o ⟨method, url, headers, json⟩ with
  | ok v => cases v; rfl
  | error e => rfl

theorem add_finding_length (f : Finding) (s : ScanState) :
    (add_finding f s).findings.length = s.findings.length + 1 := by
  rw [add_finding_findings, List.length_append, List.length_singleton]

/-- A task that issues at most `n` requests and adds at most one finding
per issued request. -/
def TaskBound (t : ScanState → ScanState × List Request) (n : Nat) : Prop :=
  ∀ s, ((t s).2).length ≤ n ∧
    ((t s).1).findings.length ≤ s.findings.length + ((t s).2).length

theorem check_exposed_route_taskbound (o : Oracle) (url : String) :
    TaskBound (check_exposed_route o url) 1 := by
  intro s
  unfold check_exposed_route
  split
  · simp
  · dsimp only
    split
    · rw [fetch_log_length]
      constructor
      · exact le_refl 1
      · rw [add_finding_length]
    · rw [fetch_log_length]
      constructor
      · exact le_refl 1
      · exact Nat.le_succ _

theorem check_missing_auth_taskbound (o : Oracle) (url : String) :
    TaskBound (check_missing_auth o url) 1 := by
  intro s
  unfold check_missing_auth
  split
  · simp
  · dsimp only
    split
    · rw [fetch_log_length]
      constructor
      · exact le_refl 1
      · rw [add_finding_length]
    · rw [fetch_log_length]
      constructor
      · exact le_refl 1
      · exact Nat.le_succ _

theorem check_privilege_taskbound (o : Oracle) (url token : String) :
    TaskBound (check_privilege o url token) 1 := by
  intro s
  unfold check_privilege
  split
  · simp
  · dsimp only
    split
    · rw [fetch_log_length]
      constructor
      · exact le_refl 1
      · rw [correlate_findings, add_finding_length]
    · rw [fetch_log_length]
      constructor
      · exact le_refl 1
      · exact Nat.le_succ _

theorem check_workflow_taskbound (o : Oracle) (url token : String) :
    TaskBound (check_workflow o url token) 1 := by
  intro s
  unfold check_workflow
  split
  · simp
  · dsimp only
    split
    · rw [fetch_log_length]
      constructor
      · exact le_refl 1
      · rw [correlate_findings, add_finding_length]
    · rw [fetch_log_length]
      constructor
      · exact le_refl 1
      · exact Nat.le_succ _

theorem check_idor_loop_taskbound (o : Oracle) (base token : String)
    (ids : List Nat) : TaskBound (check_idor_loop o base token ids) ids.length := by
  induction ids with
  | nil =>
    intro s
    simp [check_idor_loop]
  | cons i rest ih =>
    intro s
    unfold check_idor_loop
    split
    · simp
    · dsimp only
      split
      · obtain ⟨ih1, ih2⟩ := ih (correlate "IDOR" "DATA_DISCLOSURE"
          (add_finding ⟨"IDOR", base ++ "?id=" ++ toString i, Risk.CRITICAL⟩ s))
        rw [List.length_append, fetch_log_length]
        rw [correlate_findings, add_finding_length] at ih2
        constructor
        · simp only [List.length_cons]
          omega
        · omega
      · obtain ⟨ih1, ih2⟩ := ih s
        rw [List.length_append, fetch_log_length]
        constructor
        · simp only [List.length_cons]
          omega
        · omega

theorem runTasks_taskbound_nil : TaskBound (runTasks []) 0 := by
  intro s
  simp [runTasks]

theorem runTasks_taskbound_cons (t : ScanState → ScanState × List Request)
    (ts : List (ScanState → ScanState × List Request)) (n m : Nat)
    (ht : TaskBound t n) (hts : TaskBound (runTasks ts) m) :
    TaskBound (runTasks (t :: ts)) (n + m) := by
  intro s
  unfold runTasks
  dsimp only
  obtain ⟨h1, h2⟩ := ht s
  obtain ⟨h3, h4⟩ := hts (t s).1
  rw [List.length_append]
  exact ⟨by omega, by omega⟩

theorem scan_tasks_taskbound (o : Oracle) (base_url token : String) :
    TaskBound (runTasks (scan_tasks o base_url token)) 14 := by
  unfold scan_tasks
  simp only [List.map, List.cons_append, List.nil_append, waf_guarded]
  refine runTasks_taskbound_cons _ _ 1 13 (check_exposed_route_taskbound o _) ?_
  refine runTasks_taskbound_cons _ _ 1 12 (check_exposed_route_taskbound o _) ?_
  refine runTasks_taskbound_cons _ _ 1 11 (check_exposed_route_taskbound o _) ?_
  refine runTasks_taskbound_cons _ _ 1 10 (check_exposed_route_taskbound o _) ?_
  refine runTasks_taskbound_cons _ _ 1 9 (check_missing_auth_taskbound o _) ?_
  refine runTasks_taskbound_cons _ _ 1 8 (check_missing_auth_taskbound o _) ?_
  refine runTasks_taskbound_cons _ _ 5 3
    (check_idor_loop_taskbound o _ token [1, 2, 3, 4, 5]) ?_
  refine runTasks_taskbound_cons _ _ 1 2 (check_privilege_taskbound o _ token) ?_
  refine runTasks_taskbound_cons _ _ 1 1 (check_privilege_taskbound o _ token) ?_
  refine runTasks_taskbound_cons _ _ 1 0 (check_workflow_taskbound o _ token) ?_
  exact runTasks_taskbound_nil

/-- C10: every full scan terminates after at most 14 requests (4 exposed
routes, 2 missing-auth, at most 5 IDOR ids, 2 privilege, 1 workflow), and
so ends with at most 14 findings. -/
theorem C10_request_and_finding_bound :
    ∀ (o : Oracle) (base_url token : String),
      ((termul_full_async o base_url token initState).2).length ≤ 14 ∧
      ((termul_full_async o base_url token initState).1).findings.length ≤ 14 := by
  intro o base_url token
  obtain ⟨h1, h2⟩ := scan_tasks_taskbound o base_url token initState
  have h0 : initState.findings.length = 0 := rfl
  unfold termul_full_async
  exact ⟨h1, by omega⟩
